import Mathlib

/-!
Shallow embedding of `src/mainui.py` (a PyQt5 text-recognition shell).

The program has three behavioural units:
* `SettingsDialog` — two-directory settings, persisted as a flat `key=value`
  file at `~/.config/text_recognition/settings.conf`;
* the placeholder recognition step — joins 1–4 randomly sampled fixed
  paragraphs with a blank-line separator;
* the main-window controller — gates the Run/Save buttons and writes the
  recognized text to a user-chosen path.

The filesystem is modelled explicitly: a set of existing directories, a map
from file paths to contents, and injected failure sets standing for
permission or I/O errors at particular paths.  Randomness (`random.randint`,
`random.sample`) is modelled nondeterministically: the draw is a parameter
constrained exactly as the library guarantees (a count in [1,4]; that many
distinct indices into the pool).
-/

namespace TextRec

/-! ### Python string helpers -/

/-- The whitespace characters stripped by Python `str.strip()` — exactly the
`str.isspace` set (CPython `Py_UNICODE_ISSPACE`): ASCII whitespace
U+0009–U+000D and U+0020, the information separators U+001C–U+001F, NEL
U+0085, NBSP U+00A0, Ogham space U+1680, the space separators
U+2000–U+200A, the line and paragraph separators U+2028/U+2029, and
U+202F, U+205F, U+3000. -/
def isPySpace (c : Char) : Bool :=
  c = ' ' || ('\x09' ≤ c && c ≤ '\x0d') || ('\x1c' ≤ c && c ≤ '\x1f') ||
  c = '\x85' || c = '\xa0' || c = '\u1680' ||
  ('\u2000' ≤ c && c ≤ '\u200a') || c = '\u2028' || c = '\u2029' ||
  c = '\u202f' || c = '\u205f' || c = '\u3000'

/-- Python `str.strip`: drop whitespace from both ends of the line. -/
def pyStrip (l : List Char) : List Char :=
  ((l.dropWhile isPySpace).reverse.dropWhile isPySpace).reverse

/-- The universal-newline translation performed by Python text-mode reads:
`"\r\n"` and a lone `'\r'` both become `'\n'`. -/
def univNl : List Char → List Char
  | [] => []
  | ['\r'] => ['\n']
  | '\r' :: '\n' :: cs => '\n' :: univNl cs
  | '\r' :: c :: cs => '\n' :: univNl (c :: cs)
  | c :: cs => c :: univNl cs

/-- Split a character list at `'\n'`, as Python file-line iteration does
(the terminating newline of each line is dropped; a final empty chunk is
produced for content ending in a newline, which the parser skips). -/
def splitLines : List Char → List (List Char)
  | [] => [[]]
  | c :: cs =>
    if c = '\n' then [] :: splitLines cs
    else
      match splitLines cs with
      | [] => [[c]]
      | l :: ls => (c :: l) :: ls

/-- Python `line.split("=", 1)` for a line known to contain `'='`:
everything before the first `'='`, and everything after it. -/
def splitFirstEq : List Char → List Char × List Char
  | [] => ([], [])
  | c :: cs =>
    if c = '=' then ([], cs)
    else
      let p := splitFirstEq cs
      (c :: p.1, p.2)

/-! ### Python dict (insertion-ordered association list) -/

/-- A Python `dict` of strings: insertion-ordered association list;
assignment to an existing key updates it in place, a new key is appended. -/
abbrev Dict := List (String × String)

/-- `d[k] = v` with Python dict semantics. -/
def dictSet : Dict → String → String → Dict
  | [], k, v => [(k, v)]
  | (k0, v0) :: rest, k, v =>
    if k0 = k then (k0, v) :: rest else (k0, v0) :: dictSet rest k v

/-- `d.get(k)`. -/
def dictGet : Dict → String → Option String
  | [], _ => none
  | (k0, v0) :: rest, k => if k0 = k then some v0 else dictGet rest k

/-- Sequential assignment of a list of key/value pairs. -/
def dictSetAll (d : Dict) (ps : List (String × String)) : Dict :=
  ps.foldl (fun a kv => dictSet a kv.1 kv.2) d

/-! ### Filesystem model -/

/-- Filesystem state: existing directories, file contents, and the paths at
which directory creation / file writing / file reading raises (permission
errors and the like).  Recursive parent creation by `os.makedirs` is
abstracted to the target path itself. -/
structure FS where
  dirs : List String
  files : List (String × String)
  failCreate : List String
  failWrite : List String
  failRead : List String
deriving DecidableEq

/-- `os.path.isdir`. -/
def isdir (fs : FS) (p : String) : Bool := fs.dirs.contains p

/-- `os.makedirs(p, exist_ok=existOk)`.  An existing directory errors only
without `exist_ok`; the empty path always raises (`FileNotFoundError`), as
in CPython; otherwise creation fails exactly on the injected set. -/
def makedirs (fs : FS) (p : String) (existOk : Bool) : Except String FS :=
  if isdir fs p then
    if existOk then .ok fs else .error ("FileExistsError: " ++ p)
  else if p = "" then .error ("FileNotFoundError: " ++ p)
  else if fs.failCreate.contains p then .error ("PermissionError: " ++ p)
  else .ok { fs with dirs := p :: fs.dirs }

/-- `open(p, "w").write(content)` with overwrite semantics. -/
def writeFile (fs : FS) (p content : String) : Except String FS :=
  if fs.failWrite.contains p then .error ("OSError: " ++ p)
  else .ok { fs with files := dictSet fs.files p content }

/-- The content of the file at `p`, when one exists. -/
def readFile (fs : FS) (p : String) : Option String := dictGet fs.files p

/-! ### Fixed paths (the home directory is fixed for the whole run) -/

def homeDir : String := "/home/user"

/-- `os.path.expanduser("~/.config/text_recognition")`. -/
def configDir : String := homeDir ++ "/.config/text_recognition"

/-- The persisted settings file. -/
def configFile : String := configDir ++ "/settings.conf"

def defaultInputDir : String := homeDir ++ "/Pictures"

def defaultOutputDir : String := homeDir ++ "/Documents/TextRecognition"

/-- The in-memory defaults set in `SettingsDialog.__init__`. -/
def defaults : Dict := [("input_dir", defaultInputDir), ("output_dir", defaultOutputDir)]

/-! ### SettingsDialog -/

/-- The dialog's mutable state: its settings dict. -/
structure SettingsDialog where
  settings : Dict
deriving DecidableEq

/-- One iteration of the `for line in f` loop of `load_settings`:
lines without `'='` are skipped, otherwise the stripped line is split at
the first `'='` and assigned into the dict. -/
def parseLine (d : Dict) (line : List Char) : Dict :=
  if '=' ∈ line then
    let p := splitFirstEq (pyStrip line)
    dictSet d (String.mk p.1) (String.mk p.2)
  else d

/-- Parsing a whole settings-file content (text-mode read: universal
newlines, then line iteration). -/
def parseContent (d : Dict) (content : String) : Dict :=
  (splitLines (univNl content.data)).foldl parseLine d

/-- `SettingsDialog.load_settings`: if the file exists and is readable its
lines are folded into the current settings; any read failure is swallowed
and the current settings are kept. -/
def load_settings (st : SettingsDialog) (fs : FS) : SettingsDialog :=
  match readFile fs configFile with
  | none => st
  | some content =>
    if fs.failRead.contains configFile then st
    else { settings := parseContent st.settings content }

/-- `SettingsDialog.__init__`: defaults, then `load_settings`. -/
def dialogInit (fs : FS) : SettingsDialog :=
  load_settings { settings := defaults } fs

/-- A modal message box shown to the user. -/
inductive Msg where
  | warning (title body : String)
  | information (title body : String)
  | critical (title body : String)
deriving DecidableEq

def Msg.isCritical : Msg → Bool
  | .critical _ _ => true
  | _ => false

/-- The two dict assignments performed by `save_settings` after validation. -/
def updatedSettings (d : Dict) (input_dir output_dir : String) : Dict :=
  dictSet (dictSet d "input_dir" input_dir) "output_dir" output_dir

/-- The text written to the settings file: one `key=value` line per entry,
in dict order, each followed by a newline. -/
def render : Dict → String
  | [] => ""
  | (k, v) :: rest => k ++ "=" ++ v ++ "\n" ++ render rest

/-- The outcome of one `save_settings` click. -/
structure SaveResult where
  dialog : SettingsDialog
  fs : FS
  msgs : List Msg
  accepted : Bool
deriving DecidableEq

/-- `SettingsDialog.save_settings`: validate the input directory (abort on
failure), create the output directory when missing (abort on creation
failure), update the in-memory dict, then best-effort-write the settings
file (a write failure only warns), and accept the dialog. -/
def save_settings (st : SettingsDialog) (input_dir output_dir : String) (fs : FS) :
    SaveResult :=
  if isdir fs input_dir then
    let created : Except String (FS × List Msg) :=
      if isdir fs output_dir then .ok (fs, [])
      else
        match makedirs fs output_dir false with
        | .ok fs1 =>
          .ok (fs1, [Msg.information "Directory Created" ("Created output directory: " ++ output_dir)])
        | .error e => .error e
    match created with
    | .error e =>
      { dialog := st, fs := fs,
        msgs := [Msg.critical "Error" ("Could not create output directory: " ++ e)],
        accepted := false }
    | .ok (fs1, msgs) =>
      let st1 : SettingsDialog := { settings := updatedSettings st.settings input_dir output_dir }
      match makedirs fs1 configDir true with
      | .error e =>
        { dialog := st1, fs := fs1,
          msgs := msgs ++ [Msg.warning "Settings Warning" ("Could not save settings: " ++ e)],
          accepted := true }
      | .ok fs2 =>
        match writeFile fs2 configFile (render st1.settings) with
        | .error e =>
          { dialog := st1, fs := fs2,
            msgs := msgs ++ [Msg.warning "Settings Warning" ("Could not save settings: " ++ e)],
            accepted := true }
        | .ok fs3 => { dialog := st1, fs := fs3, msgs := msgs, accepted := true }
  else
    { dialog := st, fs := fs,
      msgs := [Msg.warning "Invalid Directory" "Input directory does not exist!"],
      accepted := false }

/-! ### Placeholder recognition -/

def lorem1 : String :=
  "Lorem ipsum dolor sit amet, consectetur adipiscing elit. Nullam in dui mauris. Vivamus hendrerit arcu sed erat molestie vehicula. Sed auctor neque eu tellus rhoncus ut eleifend nibh porttitor."

def lorem2 : String :=
  "Ut in nulla enim. Phasellus molestie magna non est bibendum non venenatis nisl tempor. Suspendisse dictum feugiat nisl ut dapibus. Mauris iaculis porttitor posuere."

def lorem3 : String :=
  "Sed ut perspiciatis unde omnis iste natus error sit voluptatem accusantium doloremque laudantium, totam rem aperiam, eaque ipsa quae ab illo inventore veritatis et quasi architecto beatae vitae dicta sunt explicabo."

def lorem4 : String :=
  "Nemo enim ipsam voluptatem quia voluptas sit aspernatur aut odit aut fugit, sed quia consequuntur magni dolores eos qui ratione voluptatem sequi nesciunt."

/-- The fixed pool of hardcoded paragraphs in `run_recognition`. -/
def loremParagraphs : List String := [lorem1, lorem2, lorem3, lorem4]

/-- The paragraph at a given pool index. -/
def para (i : Fin 4) : String := loremParagraphs.getD i.val ""

/-- The text set into the result area by `run_recognition`, as a function of
the random draw: `random.sample(lorem_paragraphs, num_paragraphs)` yields a
list of distinct pool indices, and the chosen paragraphs are joined with
`"\n\n"`. -/
def runRecognitionText (idxs : List (Fin 4)) : String :=
  String.intercalate "\n\n" (idxs.map para)

/-! ### Main-window state machine -/

/-- The transient per-session state of `TextRecognitionApp` relevant to the
button gating, plus a history flag recording that a recognition run
completed. -/
structure AppState where
  selectedImage : Option String
  resultText : String
  runEnabled : Bool
  saveEnabled : Bool
  ranRecognition : Bool
deriving DecidableEq

/-- The state after `init_ui`: nothing selected, both buttons disabled. -/
def initState : AppState :=
  { selectedImage := none, resultText := "", runEnabled := false,
    saveEnabled := false, ranRecognition := false }

/-- A user-triggered event.  Dialog results are carried as data: the empty
string stands for a cancelled file dialog (Python falsiness of `""`). -/
inductive Event where
  | browseImage (filePath : String)
  | runRec (idxs : List (Fin 4))
  | saveTxt (chosen : String)
  | openSettingsDlg (accepted : Bool)
deriving DecidableEq

/-- One event dispatch.  A disabled button emits no `clicked` signal, so the
run handler only fires when `runEnabled`; `save_text` and the settings
dialog touch no field of this state. -/
def step (s : AppState) (e : Event) : AppState :=
  match e with
  | .browseImage fp =>
    if fp = "" then s
    else { s with selectedImage := some fp, runEnabled := true }
  | .runRec idxs =>
    if s.runEnabled then
      match s.selectedImage with
      | none => s
      | some img =>
        if img = "" then s
        else { s with resultText := runRecognitionText idxs,
                      saveEnabled := true, ranRecognition := true }
    else s
  | .saveTxt _ => s
  | .openSettingsDlg _ => s

/-- The state reached from startup by a sequence of events. -/
def exec (evs : List Event) : AppState := evs.foldl step initState

/-! ### save_text -/

/-- `p[:p.rfind('/') + 1]` — the (slash-terminated) head of a POSIX path,
`[]` when the path has no slash. -/
def headOfPath : List Char → List Char
  | [] => []
  | c :: cs =>
    match headOfPath cs with
    | [] => if c = '/' then ['/'] else []
    | l => c :: l

/-- `os.path.dirname` for POSIX paths. -/
def dirname (s : String) : String :=
  let head := headOfPath s.data
  if head = [] then ""
  else if head.all (fun c => c = '/') then String.mk head
  else String.mk ((head.reverse.dropWhile (fun c => c = '/')).reverse)

/-- `TextRecognitionApp.save_text`: reject an empty buffer with a warning;
do nothing when the save dialog is cancelled (`chosen = ""`); otherwise
create the missing parent directory and write the buffer, reporting any
failure as a critical dialog. -/
def save_text (text : String) (fs : FS) (chosen : String) : FS × List Msg :=
  if text = "" then (fs, [Msg.warning "Error" "No text to save."])
  else if chosen = "" then (fs, [])
  else
    match makedirs fs (dirname chosen) true with
    | .error e => (fs, [Msg.critical "Error" ("Could not save file: " ++ e)])
    | .ok fs1 =>
      match writeFile fs1 chosen text with
      | .error e => (fs1, [Msg.critical "Error" ("Could not save file: " ++ e)])
      | .ok fs2 => (fs2, [])

/-! ### Well-formedness of persisted values -/

/-- A value string that survives a line-oriented write: no line breaks. -/
def noCrLf (v : String) : Prop := ∀ c ∈ v.data, c ≠ '\n' ∧ c ≠ '\r'

/-- A value string whose final character is not stripped by `str.strip`. -/
def noTrailingSpace (v : String) : Prop :=
  (v.data.reverse.head?.all fun c => !isPySpace c) = true

/-- A value that round-trips through the settings file. -/
def goodValue (v : String) : Prop := noCrLf v ∧ noTrailingSpace v

/-- A key as written by the program: no `'='`, nonempty, not starting with
whitespace, no line breaks. -/
def wellFormedKey (k : String) : Prop :=
  '=' ∉ k.data ∧ k.data ≠ [] ∧
  (k.data.head?.all fun c => !isPySpace c) = true ∧ noCrLf k

/-! ### Parsing lemmas -/

theorem univNl_eq_self (l : List Char) (h : ∀ c ∈ l, c ≠ '\r') : univNl l = l := by
  induction l with
  | nil => rfl
  | cons c cs ih =>
    have hc : c ≠ '\r' := h c (List.mem_cons_self c cs)
    have ih' : univNl cs = cs := ih fun x hx => h x (List.mem_cons_of_mem c hx)
    cases cs with
    | nil => simp [univNl, hc]
    | cons d ds => simp [univNl, hc, ih']

theorem splitLines_append (l1 rest : List Char) (h : '\n' ∉ l1) :
    splitLines (l1 ++ '\n' :: rest) = l1 :: splitLines rest := by
  induction l1 with
  | nil => simp [splitLines]
  | cons c cs ih =>
    have hc : c ≠ '\n' := fun hce => h (hce ▸ List.mem_cons_self c cs)
    have ih' := ih fun hm => h (List.mem_cons_of_mem c hm)
    simp [splitLines, hc, ih']

theorem dropWhile_eq_self_of_head (p : Char → Bool) (l : List Char)
    (h : (l.head?.all fun c => !p c) = true) : l.dropWhile p = l := by
  cases l with
  | nil => rfl
  | cons a t =>
    simp [Option.all] at h
    simp [List.dropWhile_cons, h]

theorem pyStrip_eq_self (l : List Char)
    (h1 : (l.head?.all fun c => !isPySpace c) = true)
    (h2 : (l.reverse.head?.all fun c => !isPySpace c) = true) :
    pyStrip l = l := by
  unfold pyStrip
  rw [dropWhile_eq_self_of_head _ _ h1, dropWhile_eq_self_of_head _ _ h2,
    List.reverse_reverse]

theorem splitFirstEq_append (k v : List Char) (h : '=' ∉ k) :
    splitFirstEq (k ++ '=' :: v) = (k, v) := by
  induction k with
  | nil => simp [splitFirstEq]
  | cons c cs ih =>
    have hc : c ≠ '=' := fun hce => h (hce ▸ List.mem_cons_self c cs)
    have ih' := ih fun hm => h (List.mem_cons_of_mem c hm)
    simp [splitFirstEq, hc, ih']

theorem parseLine_wf (d : Dict) (k v : String)
    (hk : wellFormedKey k) (hv : goodValue v) :
    parseLine d (k.data ++ '=' :: v.data) = dictSet d k v := by
  obtain ⟨hkEq, hkNe, hkHead, _⟩ := hk
  have hmem : '=' ∈ k.data ++ '=' :: v.data :=
    List.mem_append_right _ (List.mem_cons_self _ _)
  have hHead : ((k.data ++ '=' :: v.data).head?.all fun c => !isPySpace c) = true := by
    cases hd : k.data with
    | nil => exact absurd hd hkNe
    | cons c t => rw [hd] at hkHead; simpa using hkHead
  have hTail :
      ((k.data ++ '=' :: v.data).reverse.head?.all fun c => !isPySpace c) = true := by
    rw [List.reverse_append, List.reverse_cons]
    cases hv2 : v.data.reverse with
    | nil => simp; decide
    | cons a t =>
      have := hv.2
      rw [noTrailingSpace, hv2] at this
      simpa using this
  rw [parseLine, if_pos hmem, pyStrip_eq_self _ hHead hTail,
    splitFirstEq_append _ _ hkEq]

theorem render_no_cr (ps : List (String × String))
    (h : ∀ kv ∈ ps, wellFormedKey kv.1 ∧ goodValue kv.2) :
    ∀ c ∈ (render ps).data, c ≠ '\r' := by
  induction ps with
  | nil => intro c hc; simp [render] at hc
  | cons kv rest ih =>
    obtain ⟨k, v⟩ := kv
    have hk := (h (k, v) (List.mem_cons_self _ _)).1
    have hv := (h (k, v) (List.mem_cons_self _ _)).2
    have ih' := ih fun x hx => h x (List.mem_cons_of_mem _ hx)
    intro c hc
    have hdata : (render ((k, v) :: rest)).data =
        (k.data ++ '=' :: v.data) ++ '\n' :: (render rest).data := by
      simp [render, String.data_append]
    rw [hdata] at hc
    rcases List.mem_append.mp hc with hc | hc
    · rcases List.mem_append.mp hc with hc | hc
      · exact (hk.2.2.2 c hc).2
      · rcases List.mem_cons.mp hc with hc | hc
        · subst hc; decide
        · exact (hv.1 c hc).2
    · rcases List.mem_cons.mp hc with hc | hc
      · subst hc; decide
      · exact ih' c hc

theorem parseContent_render (ps : List (String × String)) (d : Dict)
    (h : ∀ kv ∈ ps, wellFormedKey kv.1 ∧ goodValue kv.2) :
    parseContent d (render ps) = dictSetAll d ps := by
  induction ps generalizing d with
  | nil => rfl
  | cons kv rest ih =>
    obtain ⟨k, v⟩ := kv
    have hk := (h (k, v) (List.mem_cons_self _ _)).1
    have hv := (h (k, v) (List.mem_cons_self _ _)).2
    have hrest : ∀ x ∈ rest, wellFormedKey x.1 ∧ goodValue x.2 :=
      fun x hx => h x (List.mem_cons_of_mem _ hx)
    have hdata : (render ((k, v) :: rest)).data =
        (k.data ++ '=' :: v.data) ++ '\n' :: (render rest).data := by
      simp [render, String.data_append]
    have hnl : '\n' ∉ k.data ++ '=' :: v.data := by
      intro hm
      rcases List.mem_append.mp hm with hm | hm
      · exact (hk.2.2.2 '\n' hm).1 rfl
      · rcases List.mem_cons.mp hm with hm | hm
        · exact absurd hm.symm (by decide)
        · exact (hv.1 '\n' hm).1 rfl
    have hcr : ∀ c ∈ (render ((k, v) :: rest)).data, c ≠ '\r' := render_no_cr _ h
    have hcr' : ∀ c ∈ (render rest).data, c ≠ '\r' := render_no_cr _ hrest
    rw [parseContent, univNl_eq_self _ hcr, hdata, splitLines_append _ _ hnl,
      List.foldl_cons, parseLine_wf _ _ _ hk hv]
    have : (splitLines ((render rest).data)).foldl parseLine (dictSet d k v) =
        parseContent (dictSet d k v) (render rest) := by
      rw [parseContent, univNl_eq_self _ hcr']
    rw [this, ih _ hrest]
    rfl

/-! ### Dict and filesystem lemmas -/

instance (v : String) : Decidable (noCrLf v) := by unfold noCrLf; infer_instance

instance (v : String) : Decidable (noTrailingSpace v) := by
  unfold noTrailingSpace; infer_instance

instance (v : String) : Decidable (goodValue v) := by unfold goodValue; infer_instance

instance (k : String) : Decidable (wellFormedKey k) := by
  unfold wellFormedKey noCrLf; infer_instance

theorem dictGet_dictSet_self (d : Dict) (k v : String) :
    dictGet (dictSet d k v) k = some v := by
  induction d with
  | nil => simp [dictSet, dictGet]
  | cons kv rest ih =>
    obtain ⟨k0, v0⟩ := kv
    by_cases h : k0 = k
    · simp [dictSet, dictGet, h]
    · simp [dictSet, dictGet, h, ih]

theorem configDir_ne_empty : configDir ≠ "" := by decide

theorem makedirs_existOk_ok (fs : FS) (p : String) (hne : p ≠ "")
    (hc : fs.failCreate.contains p = false) :
    makedirs fs p true =
      .ok (if isdir fs p then fs else { fs with dirs := p :: fs.dirs }) := by
  have hc' : p ∉ fs.failCreate := by simpa using hc
  by_cases h : isdir fs p = true <;> simp [makedirs, h, hne, hc']

/-- The common success path of `save_settings`: input directory valid,
output directory present or creatable, config-directory creation and
settings write not failing.  The dialog accepts with the updated dict, the
settings file holds exactly the rendered dict, and the output directory
exists afterwards. -/
theorem save_settings_success (st : SettingsDialog) (i o : String) (fs : FS)
    (hi : isdir fs i = true)
    (ho : isdir fs o = true ∨ (o ≠ "" ∧ fs.failCreate.contains o = false))
    (hcd : fs.failCreate.contains configDir = false)
    (hw : fs.failWrite.contains configFile = false) :
    (save_settings st i o fs).dialog = ⟨updatedSettings st.settings i o⟩ ∧
    (save_settings st i o fs).accepted = true ∧
    (save_settings st i o fs).fs.files =
      dictSet fs.files configFile (render (updatedSettings st.settings i o)) ∧
    (save_settings st i o fs).fs.failRead = fs.failRead ∧
    isdir (save_settings st i o fs).fs o = true ∧
    (∀ p, isdir fs p = true → isdir (save_settings st i o fs).fs p = true) := by
  have hb : isdir fs o = true ∨
      (isdir fs o = false ∧ o ≠ "" ∧ fs.failCreate.contains o = false) := by
    rcases ho with h | h
    · exact Or.inl h
    · by_cases hio : isdir fs o = true
      · exact Or.inl hio
      · exact Or.inr ⟨Bool.eq_false_iff.mpr hio, h.1, h.2⟩
  rcases hb with hio | ⟨hio, hne, hfc⟩
  · have hmk := makedirs_existOk_ok fs configDir configDir_ne_empty hcd
    by_cases hic : isdir fs configDir = true <;>
      simp_all [save_settings, writeFile, isdir, List.contains_cons]
  · have hmk := makedirs_existOk_ok { fs with dirs := o :: fs.dirs } configDir
      configDir_ne_empty hcd
    by_cases hic : isdir { fs with dirs := o :: fs.dirs } configDir = true <;>
      simp_all [save_settings, makedirs, writeFile, isdir, List.contains_cons]

/-! ### Claim theorems -/

/-- Claim C3: when the input directory does not exist as a directory,
`save_settings` reports a validation failure ("Invalid Directory" warning),
does not accept, and aborts without writing: the whole filesystem — and in
particular the persisted settings file — is left untouched. -/
theorem c3_invalid_input_aborts (st : SettingsDialog) (i o : String) (fs : FS)
    (h : isdir fs i = false) :
    save_settings st i o fs =
      { dialog := st, fs := fs,
        msgs := [Msg.warning "Invalid Directory" "Input directory does not exist!"],
        accepted := false } := by
  simp [save_settings, h]

theorem c3_witness :
    save_settings ⟨defaults⟩ "/nope" "/out" ⟨[], [], [], [], []⟩ =
      { dialog := ⟨defaults⟩, fs := ⟨[], [], [], [], []⟩,
        msgs := [Msg.warning "Invalid Directory" "Input directory does not exist!"],
        accepted := false } :=
  c3_invalid_input_aborts ⟨defaults⟩ "/nope" "/out" ⟨[], [], [], [], []⟩ (by decide)

/-- Claim C5: the load operation is total (it never surfaces an error): a
missing settings file leaves the constructor's defaults in place, an
unreadable one does the same, and lines without an `'='` are skipped by the
parser without effect. -/
theorem c5_load_fallback (fs : FS) :
    (readFile fs configFile = none → dialogInit fs = ⟨defaults⟩) ∧
    (fs.failRead.contains configFile = true → dialogInit fs = ⟨defaults⟩) ∧
    (∀ d line, '=' ∉ line → parseLine d line = d) := by
  refine ⟨?_, ?_, ?_⟩
  · intro h; simp [dialogInit, load_settings, h]
  · intro h
    have h' : configFile ∈ fs.failRead := by simpa using h
    unfold dialogInit load_settings
    cases readFile fs configFile with
    | none => rfl
    | some c => simp [h']
  · intro d line h; simp [parseLine, h]

theorem c5_witness :
    dialogInit ⟨[], [], [], [], []⟩ = ⟨defaults⟩ ∧
    dialogInit ⟨[], [(configFile, "input_dir=/x")], [], [], [configFile]⟩ = ⟨defaults⟩ ∧
    parseLine defaults ("no equals sign here".data) = defaults :=
  ⟨(c5_load_fallback ⟨[], [], [], [], []⟩).1 (by decide),
   (c5_load_fallback ⟨[], [(configFile, "input_dir=/x")], [], [], [configFile]⟩).2.1
     (by decide),
   (c5_load_fallback ⟨[], [], [], [], []⟩).2.2 defaults ("no equals sign here".data)
     (by decide)⟩

/-- Claim C6: for every save that passes directory validation — the input
directory exists and the output directory either already exists or is
successfully created — a failure to persist the settings file (the config
directory cannot be created, or the write of the file itself fails) is
non-fatal: the in-memory settings are updated to the new values, the dialog
still accepts, the failure is reported by a "Settings Warning" and nothing
critical, and the settings file on disk is left unchanged. -/
theorem c6_write_failure_nonfatal (st : SettingsDialog) (i o : String) (fs : FS)
    (hi : isdir fs i = true)
    (ho : isdir fs o = true ∨ (o ≠ "" ∧ fs.failCreate.contains o = false)) :
    (isdir fs configDir = false → configDir ≠ o → fs.failCreate.contains configDir = true →
      (save_settings st i o fs).dialog = ⟨updatedSettings st.settings i o⟩ ∧
      (save_settings st i o fs).accepted = true ∧
      (∃ e, Msg.warning "Settings Warning" ("Could not save settings: " ++ e)
        ∈ (save_settings st i o fs).msgs) ∧
      ((save_settings st i o fs).msgs.all fun m => !m.isCritical) = true ∧
      (save_settings st i o fs).fs.files = fs.files) ∧
    (fs.failCreate.contains configDir = false → fs.failWrite.contains configFile = true →
      (save_settings st i o fs).dialog = ⟨updatedSettings st.settings i o⟩ ∧
      (save_settings st i o fs).accepted = true ∧
      (∃ e, Msg.warning "Settings Warning" ("Could not save settings: " ++ e)
        ∈ (save_settings st i o fs).msgs) ∧
      ((save_settings st i o fs).msgs.all fun m => !m.isCritical) = true ∧
      (save_settings st i o fs).fs.files = fs.files) := by
  have hb : isdir fs o = true ∨
      (isdir fs o = false ∧ o ≠ "" ∧ fs.failCreate.contains o = false) := by
    rcases ho with h | h
    · exact Or.inl h
    · by_cases hio : isdir fs o = true
      · exact Or.inl hio
      · exact Or.inr ⟨Bool.eq_false_iff.mpr hio, h.1, h.2⟩
  constructor
  · intro h1 hco h2
    have h2' : configDir ∈ fs.failCreate := by simpa using h2
    rcases hb with hio | ⟨hio, hne, hfc⟩
    · have hsave : save_settings st i o fs =
          { dialog := ⟨updatedSettings st.settings i o⟩, fs := fs,
            msgs := [Msg.warning "Settings Warning"
              ("Could not save settings: " ++ ("PermissionError: " ++ configDir))],
            accepted := true } := by
        simp [save_settings, hi, hio, makedirs, h1, h2', configDir_ne_empty]
      rw [hsave]
      exact ⟨rfl, rfl, ⟨"PermissionError: " ++ configDir, by simp⟩,
        by simp [Msg.isCritical], rfl⟩
    · have hfc' : o ∉ fs.failCreate := by simpa using hfc
      have hmem : configDir ∉ fs.dirs := by simpa [isdir] using h1
      have hmk1 : makedirs fs o false = Except.ok { fs with dirs := o :: fs.dirs } := by
        simp [makedirs, hio, hne, hfc']
      have hic1 : isdir { fs with dirs := o :: fs.dirs } configDir = false := by
        simp [isdir, List.contains_cons, hco, hmem]
      have hmk2 : makedirs { fs with dirs := o :: fs.dirs } configDir true =
          Except.error ("PermissionError: " ++ configDir) := by
        simp [makedirs, hic1, configDir_ne_empty, h2']
      have hsave : save_settings st i o fs =
          { dialog := ⟨updatedSettings st.settings i o⟩,
            fs := { fs with dirs := o :: fs.dirs },
            msgs := [Msg.information "Directory Created"
                ("Created output directory: " ++ o),
              Msg.warning "Settings Warning"
                ("Could not save settings: " ++ ("PermissionError: " ++ configDir))],
            accepted := true } := by
        simp [save_settings, hi, hio, hmk1, hmk2]
      rw [hsave]
      exact ⟨rfl, rfl, ⟨"PermissionError: " ++ configDir, by simp⟩,
        by simp [Msg.isCritical], rfl⟩
  · intro hfcc hfw
    have hfw' : configFile ∈ fs.failWrite := by simpa using hfw
    rcases hb with hio | ⟨hio, hne, hfc⟩
    · have hmk := makedirs_existOk_ok fs configDir configDir_ne_empty hfcc
      by_cases hic : isdir fs configDir = true
      · rw [if_pos hic] at hmk
        have hsave : save_settings st i o fs =
            { dialog := ⟨updatedSettings st.settings i o⟩, fs := fs,
              msgs := [Msg.warning "Settings Warning"
                ("Could not save settings: " ++ ("OSError: " ++ configFile))],
              accepted := true } := by
          simp [save_settings, hi, hio, hmk, writeFile, hfw']
        rw [hsave]
        exact ⟨rfl, rfl, ⟨"OSError: " ++ configFile, by simp⟩,
          by simp [Msg.isCritical], rfl⟩
      · rw [if_neg hic] at hmk
        have hsave : save_settings st i o fs =
            { dialog := ⟨updatedSettings st.settings i o⟩,
              fs := { fs with dirs := configDir :: fs.dirs },
              msgs := [Msg.warning "Settings Warning"
                ("Could not save settings: " ++ ("OSError: " ++ configFile))],
              accepted := true } := by
          simp [save_settings, hi, hio, hmk, writeFile, hfw']
        rw [hsave]
        exact ⟨rfl, rfl, ⟨"OSError: " ++ configFile, by simp⟩,
          by simp [Msg.isCritical], rfl⟩
    · have hfc' : o ∉ fs.failCreate := by simpa using hfc
      have hmk1 : makedirs fs o false = Except.ok { fs with dirs := o :: fs.dirs } := by
        simp [makedirs, hio, hne, hfc']
      have hmk := makedirs_existOk_ok { fs with dirs := o :: fs.dirs } configDir
        configDir_ne_empty hfcc
      by_cases hic : isdir { fs with dirs := o :: fs.dirs } configDir = true
      · rw [if_pos hic] at hmk
        have hsave : save_settings st i o fs =
            { dialog := ⟨updatedSettings st.settings i o⟩,
              fs := { fs with dirs := o :: fs.dirs },
              msgs := [Msg.information "Directory Created"
                  ("Created output directory: " ++ o),
                Msg.warning "Settings Warning"
                  ("Could not save settings: " ++ ("OSError: " ++ configFile))],
              accepted := true } := by
          simp [save_settings, hi, hio, hmk1, hmk, writeFile, hfw']
        rw [hsave]
        exact ⟨rfl, rfl, ⟨"OSError: " ++ configFile, by simp⟩,
          by simp [Msg.isCritical], rfl⟩
      · rw [if_neg hic] at hmk
        have hsave : save_settings st i o fs =
            { dialog := ⟨updatedSettings st.settings i o⟩,
              fs := { fs with dirs := configDir :: o :: fs.dirs },
              msgs := [Msg.information "Directory Created"
                  ("Created output directory: " ++ o),
                Msg.warning "Settings Warning"
                  ("Could not save settings: " ++ ("OSError: " ++ configFile))],
              accepted := true } := by
          simp [save_settings, hi, hio, hmk1, hmk, writeFile, hfw']
        rw [hsave]
        exact ⟨rfl, rfl, ⟨"OSError: " ++ configFile, by simp⟩,
          by simp [Msg.isCritical], rfl⟩

theorem c6_witness :
    ((save_settings ⟨defaults⟩ "/in" "/out" ⟨["/in"], [], [configDir], [], []⟩).dialog =
        ⟨updatedSettings defaults "/in" "/out"⟩ ∧
     (save_settings ⟨defaults⟩ "/in" "/out" ⟨["/in"], [], [configDir], [], []⟩).accepted
        = true ∧
     (∃ e, Msg.warning "Settings Warning" ("Could not save settings: " ++ e)
       ∈ (save_settings ⟨defaults⟩ "/in" "/out" ⟨["/in"], [], [configDir], [], []⟩).msgs) ∧
     ((save_settings ⟨defaults⟩ "/in" "/out" ⟨["/in"], [], [configDir], [], []⟩).msgs.all
        fun m => !m.isCritical) = true ∧
     (save_settings ⟨defaults⟩ "/in" "/out" ⟨["/in"], [], [configDir], [], []⟩).fs.files
        = []) ∧
    ((save_settings ⟨defaults⟩ "/in" "/out"
        ⟨["/in", "/out"], [], [], [configFile], []⟩).dialog =
        ⟨updatedSettings defaults "/in" "/out"⟩ ∧
     (save_settings ⟨defaults⟩ "/in" "/out"
        ⟨["/in", "/out"], [], [], [configFile], []⟩).accepted = true ∧
     (∃ e, Msg.warning "Settings Warning" ("Could not save settings: " ++ e)
       ∈ (save_settings ⟨defaults⟩ "/in" "/out"
            ⟨["/in", "/out"], [], [], [configFile], []⟩).msgs) ∧
     ((save_settings ⟨defaults⟩ "/in" "/out"
        ⟨["/in", "/out"], [], [], [configFile], []⟩).msgs.all
        fun m => !m.isCritical) = true ∧
     (save_settings ⟨defaults⟩ "/in" "/out"
        ⟨["/in", "/out"], [], [], [configFile], []⟩).fs.files = []) :=
  ⟨(c6_write_failure_nonfatal ⟨defaults⟩ "/in" "/out" ⟨["/in"], [], [configDir], [], []⟩
      (by decide) (Or.inr ⟨by decide, by decide⟩)).1 (by decide) (by decide) (by decide),
   (c6_write_failure_nonfatal ⟨defaults⟩ "/in" "/out"
      ⟨["/in", "/out"], [], [], [configFile], []⟩
      (by decide) (Or.inl (by decide))).2 (by decide) (by decide)⟩

/-- Claim C10 (implicit): when `save_settings` fails validation — the input
directory does not exist, or the output directory cannot be created — the
in-memory settings dict is left completely unchanged (and so is the
filesystem): the dict is mutated only after both checks succeed. -/
theorem c10_validation_failure_preserves_memory (st : SettingsDialog) (i o : String)
    (fs : FS) :
    (isdir fs i = false →
      (save_settings st i o fs).dialog = st ∧ (save_settings st i o fs).fs = fs) ∧
    (isdir fs i = true → isdir fs o = false →
      (∃ e, makedirs fs o false = Except.error e) →
      (save_settings st i o fs).dialog = st ∧ (save_settings st i o fs).fs = fs) := by
  constructor
  · intro h; simp [save_settings, h]
  · rintro h1 h2 ⟨e, he⟩
    simp [save_settings, h1, h2, he]

theorem c10_witness :
    ((save_settings ⟨defaults⟩ "/a" "/b" ⟨[], [], [], [], []⟩).dialog = ⟨defaults⟩ ∧
     (save_settings ⟨defaults⟩ "/a" "/b" ⟨[], [], [], [], []⟩).fs = ⟨[], [], [], [], []⟩) ∧
    ((save_settings ⟨defaults⟩ "/d" "/x" ⟨["/d"], [], ["/x"], [], []⟩).dialog = ⟨defaults⟩ ∧
     (save_settings ⟨defaults⟩ "/d" "/x" ⟨["/d"], [], ["/x"], [], []⟩).fs =
       ⟨["/d"], [], ["/x"], [], []⟩) :=
  ⟨(c10_validation_failure_preserves_memory ⟨defaults⟩ "/a" "/b"
      ⟨[], [], [], [], []⟩).1 (by decide),
   (c10_validation_failure_preserves_memory ⟨defaults⟩ "/d" "/x"
      ⟨["/d"], [], ["/x"], [], []⟩).2 (by decide) (by decide)
      ⟨"PermissionError: /x", rfl⟩⟩

/-- Claim C2 counterexample: the round-trip fails for an output directory
path containing a newline.  With input directory `/d` (which exists) and
output directory `"a\nb"`, the save succeeds, but a subsequent load returns
`"a"` for `output_dir`, not `"a\nb"`: the value is written on one line and
split at the embedded newline on read. -/
theorem c2_counterexample :
    (save_settings ⟨defaults⟩ "/d" "a\nb" ⟨["/d"], [], [], [], []⟩).accepted = true ∧
    dictGet (dialogInit (save_settings ⟨defaults⟩ "/d" "a\nb"
      ⟨["/d"], [], [], [], []⟩).fs).settings "output_dir" = some "a" ∧
    ("a" : String) ≠ "a\nb" :=
  ⟨rfl, rfl, by decide⟩

/-- Claim C2 (amended): for every existing input directory and every output
directory path, provided neither value contains a line break (`'\n'` or
`'\r'`) and neither ends in whitespace, a successful `save_settings` writes
exactly the two key/value pairs to the settings file and a subsequent load
returns both values unchanged. -/
theorem c2_roundtrip_line_safe (fs : FS) (a b i o : String)
    (hgi : goodValue i) (hgo : goodValue o)
    (hi : isdir fs i = true)
    (ho : isdir fs o = true ∨ (o ≠ "" ∧ fs.failCreate.contains o = false))
    (hcd : fs.failCreate.contains configDir = false)
    (hw : fs.failWrite.contains configFile = false)
    (hr : fs.failRead.contains configFile = false) :
    (save_settings ⟨[("input_dir", a), ("output_dir", b)]⟩ i o fs).accepted = true ∧
    readFile (save_settings ⟨[("input_dir", a), ("output_dir", b)]⟩ i o fs).fs configFile
      = some (render [("input_dir", i), ("output_dir", o)]) ∧
    dictGet (dialogInit
      (save_settings ⟨[("input_dir", a), ("output_dir", b)]⟩ i o fs).fs).settings
      "input_dir" = some i ∧
    dictGet (dialogInit
      (save_settings ⟨[("input_dir", a), ("output_dir", b)]⟩ i o fs).fs).settings
      "output_dir" = some o := by
  obtain ⟨hdlg, hacc, hfiles, hfr, hiso, hmono⟩ :=
    save_settings_success ⟨[("input_dir", a), ("output_dir", b)]⟩ i o fs hi ho hcd hw
  have hupd : updatedSettings [("input_dir", a), ("output_dir", b)] i o =
      [("input_dir", i), ("output_dir", o)] := rfl
  rw [hupd] at hfiles
  have hread : readFile (save_settings ⟨[("input_dir", a), ("output_dir", b)]⟩ i o fs).fs
      configFile = some (render [("input_dir", i), ("output_dir", o)]) := by
    rw [readFile, hfiles, dictGet_dictSet_self]
  have hparse : parseContent defaults (render [("input_dir", i), ("output_dir", o)]) =
      [("input_dir", i), ("output_dir", o)] := by
    rw [parseContent_render]
    · rfl
    · intro kv hkv
      rcases List.mem_cons.mp hkv with h | h
      · rw [h]; exact ⟨show wellFormedKey "input_dir" by decide, hgi⟩
      · rcases List.mem_cons.mp h with h | h
        · rw [h]; exact ⟨show wellFormedKey "output_dir" by decide, hgo⟩
        · cases h
  have hr' : configFile ∉
      (save_settings ⟨[("input_dir", a), ("output_dir", b)]⟩ i o fs).fs.failRead := by
    rw [hfr]; simpa using hr
  have hinit : dialogInit (save_settings ⟨[("input_dir", a), ("output_dir", b)]⟩ i o fs).fs
      = ⟨[("input_dir", i), ("output_dir", o)]⟩ := by
    unfold dialogInit load_settings
    rw [hread]
    simp [hr', hparse]
  refine ⟨hacc, hread, ?_, ?_⟩ <;> rw [hinit] <;> rfl

theorem c2_witness :
    goodValue "/d" ∧ goodValue "/out dir" ∧
    (save_settings ⟨[("input_dir", "/p"), ("output_dir", "/q")]⟩ "/d" "/out dir"
      ⟨["/d"], [], [], [], []⟩).accepted = true ∧
    readFile (save_settings ⟨[("input_dir", "/p"), ("output_dir", "/q")]⟩ "/d" "/out dir"
      ⟨["/d"], [], [], [], []⟩).fs configFile
      = some (render [("input_dir", "/d"), ("output_dir", "/out dir")]) ∧
    dictGet (dialogInit
      (save_settings ⟨[("input_dir", "/p"), ("output_dir", "/q")]⟩ "/d" "/out dir"
        ⟨["/d"], [], [], [], []⟩).fs).settings "input_dir" = some "/d" ∧
    dictGet (dialogInit
      (save_settings ⟨[("input_dir", "/p"), ("output_dir", "/q")]⟩ "/d" "/out dir"
        ⟨["/d"], [], [], [], []⟩).fs).settings "output_dir" = some "/out dir" :=
  ⟨by decide, by decide,
   (c2_roundtrip_line_safe ⟨["/d"], [], [], [], []⟩ "/p" "/q" "/d" "/out dir"
     (by decide) (by decide) (by decide) (Or.inr ⟨by decide, by decide⟩)
     (by decide) (by decide) (by decide)).1,
   (c2_roundtrip_line_safe ⟨["/d"], [], [], [], []⟩ "/p" "/q" "/d" "/out dir"
     (by decide) (by decide) (by decide) (Or.inr ⟨by decide, by decide⟩)
     (by decide) (by decide) (by decide)).2.1,
   (c2_roundtrip_line_safe ⟨["/d"], [], [], [], []⟩ "/p" "/q" "/d" "/out dir"
     (by decide) (by decide) (by decide) (Or.inr ⟨by decide, by decide⟩)
     (by decide) (by decide) (by decide)).2.2.1,
   (c2_roundtrip_line_safe ⟨["/d"], [], [], [], []⟩ "/p" "/q" "/d" "/out dir"
     (by decide) (by decide) (by decide) (Or.inr ⟨by decide, by decide⟩)
     (by decide) (by decide) (by decide)).2.2.2⟩

/-- Claim C8: on load, duplicate keys resolve last-value-wins; unknown keys
(here `mystery`) are retained in the mapping; and a subsequent save
overwrites the settings file with the full current key/value set — every
key, including the unknown one, written back, regardless of what the file
held before. -/
theorem c8_last_wins_unknown_kept_full_overwrite (v1 v2 w i o : String)
    (hv1 : goodValue v1) (hv2 : goodValue v2) (hwv : goodValue w)
    (fs : FS) (hi : isdir fs i = true) (ho : isdir fs o = true)
    (hcd : fs.failCreate.contains configDir = false)
    (hwr : fs.failWrite.contains configFile = false) :
    dictGet (parseContent defaults
      (render [("input_dir", v1), ("input_dir", v2), ("mystery", w)])) "input_dir"
      = some v2 ∧
    dictGet (parseContent defaults
      (render [("input_dir", v1), ("input_dir", v2), ("mystery", w)])) "mystery"
      = some w ∧
    readFile (save_settings
      ⟨parseContent defaults
        (render [("input_dir", v1), ("input_dir", v2), ("mystery", w)])⟩ i o fs).fs
      configFile
      = some (render [("input_dir", i), ("output_dir", o), ("mystery", w)]) := by
  have hwf : ∀ kv ∈ [("input_dir", v1), ("input_dir", v2), ("mystery", w)],
      wellFormedKey kv.1 ∧ goodValue kv.2 := by
    intro kv hkv
    rcases List.mem_cons.mp hkv with h | h
    · rw [h]; exact ⟨show wellFormedKey "input_dir" by decide, hv1⟩
    · rcases List.mem_cons.mp h with h | h
      · rw [h]; exact ⟨show wellFormedKey "input_dir" by decide, hv2⟩
      · rcases List.mem_cons.mp h with h | h
        · rw [h]; exact ⟨show wellFormedKey "mystery" by decide, hwv⟩
        · cases h
  have hparse : parseContent defaults
      (render [("input_dir", v1), ("input_dir", v2), ("mystery", w)]) =
      [("input_dir", v2), ("output_dir", defaultOutputDir), ("mystery", w)] := by
    rw [parseContent_render _ _ hwf]; rfl
  rw [hparse]
  obtain ⟨hdlg, hacc, hfiles, hfr, hiso, hmono⟩ :=
    save_settings_success ⟨[("input_dir", v2), ("output_dir", defaultOutputDir), ("mystery", w)]⟩
      i o fs hi (Or.inl ho) hcd hwr
  have hupd : updatedSettings
      [("input_dir", v2), ("output_dir", defaultOutputDir), ("mystery", w)] i o =
      [("input_dir", i), ("output_dir", o), ("mystery", w)] := rfl
  rw [hupd] at hfiles
  exact ⟨rfl, rfl, by rw [readFile, hfiles, dictGet_dictSet_self]⟩

theorem c8_witness :
    dictGet (parseContent defaults
      (render [("input_dir", "/x"), ("input_dir", "/y"), ("mystery", "z")])) "input_dir"
      = some "/y" ∧
    dictGet (parseContent defaults
      (render [("input_dir", "/x"), ("input_dir", "/y"), ("mystery", "z")])) "mystery"
      = some "z" ∧
    readFile (save_settings
      ⟨parseContent defaults
        (render [("input_dir", "/x"), ("input_dir", "/y"), ("mystery", "z")])⟩ "/i" "/o"
      ⟨["/i", "/o"], [(configFile, "old stale content")], [], [], []⟩).fs configFile
      = some (render [("input_dir", "/i"), ("output_dir", "/o"), ("mystery", "z")]) :=
  c8_last_wins_unknown_kept_full_overwrite "/x" "/y" "z" "/i" "/o"
    (by decide) (by decide) (by decide)
    ⟨["/i", "/o"], [(configFile, "old stale content")], [], [], []⟩
    (by decide) (by decide) (by decide) (by decide)

/-! ### Recognition lemmas -/

set_option maxRecDepth 8192 in
theorem para_inj_all : ∀ a b : Fin 4, para a = para b → a = b := by decide

theorem para_injective : Function.Injective para := by
  intro a b h
  exact para_inj_all a b h

set_option maxRecDepth 8192 in
theorem para_mem : ∀ i : Fin 4, para i ∈ loremParagraphs := by decide

set_option maxRecDepth 8192 in
theorem para_no_lf : ∀ i : Fin 4, '\n' ∉ (para i).data := by decide

/-- Claim C1: a run of the recognition operation from a state with a
confirmed image selection sets the result text to the join, with separator
`"\n\n"`, of `k` paragraphs drawn without replacement from the fixed pool
of 4 paragraphs, where the draw yields `1 ≤ k ≤ 4`; hence the output
consists of between 1 and 4 of the 4 known paragraphs, each at most once,
and (the paragraphs being newline-free) separated by exactly one blank
line.  The random draw is modelled nondeterministically by the index list
`idxs`, constrained exactly as `random.randint(1, 4)` and `random.sample`
guarantee. -/
theorem c1_recognition_output (s : AppState) (img : String) (idxs : List (Fin 4))
    (hrun : s.runEnabled = true) (himg : s.selectedImage = some img) (hne : img ≠ "")
    (hk1 : 1 ≤ idxs.length) (hk4 : idxs.length ≤ 4) (hnd : idxs.Nodup) :
    loremParagraphs.length = 4 ∧
    ∃ sel : List String,
      (step s (Event.runRec idxs)).resultText = String.intercalate "\n\n" sel ∧
      sel.length = idxs.length ∧ 1 ≤ sel.length ∧ sel.length ≤ 4 ∧ sel.Nodup ∧
      (∀ p ∈ sel, p ∈ loremParagraphs) ∧ (∀ p ∈ sel, '\n' ∉ p.data) := by
  refine ⟨rfl, idxs.map para, ?_, ?_, ?_, ?_, ?_, ?_, ?_⟩
  · simp [step, hrun, himg, hne, runRecognitionText]
  · simp
  · simpa using hk1
  · simpa using hk4
  · exact List.Nodup.map para_injective hnd
  · intro p hp
    rcases List.mem_map.mp hp with ⟨i, _, rfl⟩
    exact para_mem i
  · intro p hp
    rcases List.mem_map.mp hp with ⟨i, _, rfl⟩
    exact para_no_lf i

theorem c1_witness :
    loremParagraphs.length = 4 ∧
    ∃ sel : List String,
      (step { selectedImage := some "/img/cat.jpg", resultText := "",
              runEnabled := true, saveEnabled := false, ranRecognition := false }
        (Event.runRec [0, 2])).resultText = String.intercalate "\n\n" sel ∧
      sel.length = ([0, 2] : List (Fin 4)).length ∧ 1 ≤ sel.length ∧
      sel.length ≤ 4 ∧ sel.Nodup ∧
      (∀ p ∈ sel, p ∈ loremParagraphs) ∧ (∀ p ∈ sel, '\n' ∉ p.data) :=
  c1_recognition_output
    { selectedImage := some "/img/cat.jpg", resultText := "",
      runEnabled := true, saveEnabled := false, ranRecognition := false }
    "/img/cat.jpg" [0, 2] rfl rfl (by decide) (by decide) (by decide) (by decide)

/-! ### Button-gating invariant -/

/-- The gating invariant: the run button is enabled exactly when a nonempty
image path has been confirmed, and the save button is enabled only once a
recognition run has completed. -/
def buttonInv (s : AppState) : Prop :=
  (s.runEnabled = true ↔ ∃ p, s.selectedImage = some p ∧ p ≠ "") ∧
  (s.saveEnabled = true → s.ranRecognition = true)

theorem buttonInv_init : buttonInv initState := by
  constructor
  · constructor
    · intro h; simp [initState] at h
    · rintro ⟨p, hp, -⟩; simp [initState] at hp
  · intro h; simp [initState] at h

theorem buttonInv_step (s : AppState) (e : Event) (h : buttonInv s) :
    buttonInv (step s e) := by
  obtain ⟨h1, h2⟩ := h
  cases e with
  | browseImage fp =>
    by_cases hfp : fp = ""
    · simpa [step, hfp] using ⟨h1, h2⟩
    · refine ⟨?_, ?_⟩
      · simp [step, hfp]
      · simp [step, hfp]; exact h2
  | runRec idxs =>
    by_cases hr : s.runEnabled = true
    · cases hsel : s.selectedImage with
      | none => simpa [step, hr, hsel] using ⟨h1, h2⟩
      | some img =>
        by_cases hme : img = ""
        · simpa [step, hr, hsel, hme] using ⟨h1, h2⟩
        · refine ⟨?_, ?_⟩
          · simp [step, hr, hsel, hme]
          · simp [step, hr, hsel, hme]
    · have hr' : s.runEnabled = false := by simpa using hr
      simpa [step, hr'] using ⟨h1, h2⟩
  | saveTxt c => exact ⟨h1, h2⟩
  | openSettingsDlg a => exact ⟨h1, h2⟩

theorem buttonInv_foldl (evs : List Event) :
    ∀ s, buttonInv s → buttonInv (evs.foldl step s) := by
  induction evs with
  | nil => intro s h; exact h
  | cons e rest ih => intro s h; exact ih _ (buttonInv_step s e h)

/-- Claim C9: in every reachable state of the main window, the run button
is enabled only after (indeed, exactly when) a nonempty image selection has
been confirmed, and the save button is enabled only after a recognition run
has completed; both buttons start disabled, and — the invariant holding
along every event sequence — no other event enables them. -/
theorem c9_button_gating (evs : List Event) :
    initState.runEnabled = false ∧ initState.saveEnabled = false ∧
    ((exec evs).runEnabled = true →
      ∃ p, (exec evs).selectedImage = some p ∧ p ≠ "") ∧
    ((exec evs).saveEnabled = true → (exec evs).ranRecognition = true) := by
  have h := buttonInv_foldl evs initState buttonInv_init
  exact ⟨rfl, rfl, h.1.mp, h.2⟩

theorem c9_witness :
    (∃ p, (exec [Event.browseImage "/img/cat.jpg",
                 Event.runRec [1]]).selectedImage = some p ∧ p ≠ "") ∧
    (exec [Event.browseImage "/img/cat.jpg", Event.runRec [1]]).ranRecognition = true :=
  ⟨(c9_button_gating [Event.browseImage "/img/cat.jpg", Event.runRec [1]]).2.2.1 rfl,
   (c9_button_gating [Event.browseImage "/img/cat.jpg", Event.runRec [1]]).2.2.2 rfl⟩

/-! ### Creation / write fact lemmas -/

theorem makedirs_ok_facts (fs : FS) (p : String) (b : Bool) (fs' : FS)
    (h : makedirs fs p b = .ok fs') :
    isdir fs' p = true ∧ (∀ q, isdir fs q = true → isdir fs' q = true) ∧
    fs'.files = fs.files ∧ fs'.failCreate = fs.failCreate ∧
    fs'.failWrite = fs.failWrite ∧ fs'.failRead = fs.failRead := by
  unfold makedirs at h
  by_cases h1 : isdir fs p = true
  · rw [if_pos h1] at h
    cases b with
    | true =>
      simp only [if_true] at h
      cases h
      exact ⟨h1, fun q hq => hq, rfl, rfl, rfl, rfl⟩
    | false => simp at h
  · rw [if_neg h1] at h
    by_cases h2 : p = ""
    · rw [if_pos h2] at h; cases h
    · rw [if_neg h2] at h
      by_cases h3 : fs.failCreate.contains p = true
      · rw [if_pos (by simpa using h3)] at h; cases h
      · rw [if_neg (by simpa using h3)] at h
        cases h
        refine ⟨?_, ?_, rfl, rfl, rfl, rfl⟩
        · simp [isdir]
        · intro q hq
          have hq' : q ∈ fs.dirs := by simpa [isdir] using hq
          simp [isdir, List.contains_cons, hq']

theorem writeFile_ok_facts (fs : FS) (p c : String) (fs' : FS)
    (h : writeFile fs p c = .ok fs') :
    fs'.dirs = fs.dirs ∧ fs'.files = dictSet fs.files p c := by
  unfold writeFile at h
  by_cases h1 : fs.failWrite.contains p = true
  · rw [if_pos (by simpa using h1)] at h; cases h
  · rw [if_neg (by simpa using h1)] at h
    cases h
    exact ⟨rfl, rfl⟩

/-- A re-save from a state where both directories already exist can only
produce warnings (never a critical dialog) and always accepts. -/
theorem save_settings_no_critical (st : SettingsDialog) (i o : String) (fs : FS)
    (hi : isdir fs i = true) (ho : isdir fs o = true) :
    ((save_settings st i o fs).msgs.all fun m => !m.isCritical) = true ∧
    (save_settings st i o fs).accepted = true := by
  simp only [save_settings, hi, ho, if_true]
  split
  · simp [Msg.isCritical]
  · split
    · simp [Msg.isCritical]
    · simp

/-- The creation path of `save_settings`: with a valid input directory and a
missing but creatable output directory, the output directory exists
afterwards (whatever happens to the settings write), the dialog accepts,
the informational notice is shown, and existing directories survive. -/
theorem save_settings_creation_facts (st : SettingsDialog) (i o : String) (fs : FS)
    (hi : isdir fs i = true) (ho : isdir fs o = false) (hne : o ≠ "")
    (hfc : fs.failCreate.contains o = false) :
    isdir (save_settings st i o fs).fs o = true ∧
    (∀ q, isdir fs q = true → isdir (save_settings st i o fs).fs q = true) ∧
    (save_settings st i o fs).accepted = true ∧
    Msg.information "Directory Created" ("Created output directory: " ++ o)
      ∈ (save_settings st i o fs).msgs := by
  have hfc' : o ∉ fs.failCreate := by simpa using hfc
  have hmk : makedirs fs o false = .ok { fs with dirs := o :: fs.dirs } := by
    simp [makedirs, ho, hne, hfc']
  have hdir1 : isdir { fs with dirs := o :: fs.dirs } o = true := by simp [isdir]
  have hmono1 : ∀ q, isdir fs q = true → isdir { fs with dirs := o :: fs.dirs } q = true := by
    intro q hq
    have hq' : q ∈ fs.dirs := by simpa [isdir] using hq
    simp [isdir, List.contains_cons, hq']
  simp only [save_settings, hi, ho, hmk, if_true, Bool.false_eq_true, if_false]
  split
  · exact ⟨hdir1, hmono1, rfl, by simp⟩
  · rename_i fs2 hm2
    obtain ⟨-, hmono2, -, -, -, -⟩ := makedirs_ok_facts _ _ _ _ hm2
    split
    · exact ⟨hmono2 o hdir1, fun q hq => hmono2 q (hmono1 q hq), rfl, by simp⟩
    · rename_i fs3 hw
      obtain ⟨hdirs3, -⟩ := writeFile_ok_facts _ _ _ _ hw
      have h3 : ∀ q, isdir fs2 q = true → isdir fs3 q = true := by
        intro q hq
        simpa [isdir, hdirs3] using hq
      exact ⟨h3 o (hmono2 o hdir1), fun q hq => h3 q (hmono2 q (hmono1 q hq)), rfl, by simp⟩

/-- Claim C4: with a valid input directory and a missing output directory:
if creation can succeed the directory is created (it exists afterwards),
the save accepts and reports the informational "Directory Created" notice,
and re-saving with the same output path does not error (no critical dialog,
and the second save accepts too — idempotence); if creation fails, the
error is reported as a critical dialog and the operation aborts without
persisting anything (dialog, filesystem and settings file unchanged). -/
theorem c4_output_dir_creation (st : SettingsDialog) (i o : String) (fs : FS)
    (hi : isdir fs i = true) (ho : isdir fs o = false) :
    (o ≠ "" → fs.failCreate.contains o = false →
      isdir (save_settings st i o fs).fs o = true ∧
      (save_settings st i o fs).accepted = true ∧
      Msg.information "Directory Created" ("Created output directory: " ++ o)
        ∈ (save_settings st i o fs).msgs ∧
      ((save_settings (save_settings st i o fs).dialog i o
          (save_settings st i o fs).fs).msgs.all fun m => !m.isCritical) = true ∧
      (save_settings (save_settings st i o fs).dialog i o
          (save_settings st i o fs).fs).accepted = true) ∧
    (∀ e, makedirs fs o false = Except.error e →
      save_settings st i o fs =
        { dialog := st, fs := fs,
          msgs := [Msg.critical "Error" ("Could not create output directory: " ++ e)],
          accepted := false }) := by
  constructor
  · intro hne hfc
    obtain ⟨ho1, hmono, hacc, hinfo⟩ := save_settings_creation_facts st i o fs hi ho hne hfc
    obtain ⟨hnc, hacc2⟩ := save_settings_no_critical (save_settings st i o fs).dialog i o
      (save_settings st i o fs).fs (hmono i hi) ho1
    exact ⟨ho1, hacc, hinfo, hnc, hacc2⟩
  · intro e he
    simp [save_settings, hi, ho, he]

theorem c4_witness :
    (isdir (save_settings ⟨defaults⟩ "/i" "/o" ⟨["/i"], [], [], [], []⟩).fs "/o" = true ∧
     (save_settings ⟨defaults⟩ "/i" "/o" ⟨["/i"], [], [], [], []⟩).accepted = true ∧
     Msg.information "Directory Created" ("Created output directory: " ++ "/o")
       ∈ (save_settings ⟨defaults⟩ "/i" "/o" ⟨["/i"], [], [], [], []⟩).msgs ∧
     ((save_settings (save_settings ⟨defaults⟩ "/i" "/o" ⟨["/i"], [], [], [], []⟩).dialog
         "/i" "/o" (save_settings ⟨defaults⟩ "/i" "/o"
           ⟨["/i"], [], [], [], []⟩).fs).msgs.all fun m => !m.isCritical) = true ∧
     (save_settings (save_settings ⟨defaults⟩ "/i" "/o" ⟨["/i"], [], [], [], []⟩).dialog
         "/i" "/o" (save_settings ⟨defaults⟩ "/i" "/o"
           ⟨["/i"], [], [], [], []⟩).fs).accepted = true) ∧
    save_settings ⟨defaults⟩ "/i" "/o" ⟨["/i"], [], ["/o"], [], []⟩ =
      { dialog := ⟨defaults⟩, fs := ⟨["/i"], [], ["/o"], [], []⟩,
        msgs := [Msg.critical "Error"
          ("Could not create output directory: " ++ ("PermissionError: " ++ "/o"))],
        accepted := false } :=
  ⟨(c4_output_dir_creation ⟨defaults⟩ "/i" "/o" ⟨["/i"], [], [], [], []⟩
      (by decide) (by decide)).1 (by decide) (by decide),
   (c4_output_dir_creation ⟨defaults⟩ "/i" "/o" ⟨["/i"], [], ["/o"], [], []⟩
      (by decide) (by decide)).2 ("PermissionError: " ++ "/o") rfl⟩

/-- Claim C7: `save_text` with an empty buffer is rejected with a
user-facing error and leaves the filesystem untouched; with a nonempty
buffer and a confirmed save path (whose parent is creatable and which is
writable), the missing parent directory is created, the buffer is written
byte-identically to the chosen path with overwrite semantics, and no error
dialog is shown. -/
theorem c7_save_text (fs : FS) :
    (∀ chosen, save_text "" fs chosen = (fs, [Msg.warning "Error" "No text to save."])) ∧
    (∀ text chosen, text ≠ "" → chosen ≠ "" → dirname chosen ≠ "" →
      fs.failCreate.contains (dirname chosen) = false →
      fs.failWrite.contains chosen = false →
      readFile (save_text text fs chosen).1 chosen = some text ∧
      isdir (save_text text fs chosen).1 (dirname chosen) = true ∧
      (save_text text fs chosen).2 = []) := by
  constructor
  · intro chosen; simp [save_text]
  · intro text chosen ht hc hd hfc hfw
    have hmk := makedirs_existOk_ok fs (dirname chosen) hd hfc
    have hfw' : chosen ∉ fs.failWrite := by simpa using hfw
    by_cases hdd : isdir fs (dirname chosen) = true
    · rw [if_pos hdd] at hmk
      refine ⟨?_, ?_, ?_⟩ <;>
        simp [save_text, ht, hc, hmk, writeFile, hfw', readFile,
          dictGet_dictSet_self]
      simpa [isdir] using hdd
    · rw [if_neg hdd] at hmk
      simp [save_text, ht, hc, hmk, writeFile, hfw', readFile,
        dictGet_dictSet_self, isdir]

theorem c7_witness :
    save_text "" ⟨[], [], [], [], []⟩ "/out/f.txt" =
      (⟨[], [], [], [], []⟩, [Msg.warning "Error" "No text to save."]) ∧
    (readFile (save_text "hello" ⟨[], [(( "/out/f.txt" : String), "old")], [], [], []⟩
        "/out/f.txt").1 "/out/f.txt" = some "hello" ∧
     isdir (save_text "hello" ⟨[], [(( "/out/f.txt" : String), "old")], [], [], []⟩
        "/out/f.txt").1 (dirname "/out/f.txt") = true ∧
     (save_text "hello" ⟨[], [(( "/out/f.txt" : String), "old")], [], [], []⟩
        "/out/f.txt").2 = []) :=
  ⟨(c7_save_text ⟨[], [], [], [], []⟩).1 "/out/f.txt",
   (c7_save_text ⟨[], [(( "/out/f.txt" : String), "old")], [], [], []⟩).2 "hello"
     "/out/f.txt" (by decide) (by decide) (by decide) (by decide) (by decide)⟩

end TextRec
